import Mathlib

/-!
# Verification of the `spl_tool` SPL-header library

Shallow embedding of the Rust sources (`src/crc32.rs`, `src/error.rs`,
`src/spl_header.rs`, `src/main.rs`) of the `spl_tool` crate.  Machine
integers (`u32`, `usize`) are modelled as `Nat`, with an explicit
`% 2 ^ 32` wherever the Rust `u32` semantics can wrap.  Byte buffers are
`List Nat` whose elements are intended to lie below 256.  Fallible Rust
code is modelled with explicit result types; a Rust panic (out-of-bounds
slice index) is modelled as a dedicated `panicked` outcome.
-/

namespace SplTool

/-! ## `src/crc32.rs` -/

/-- Embedding of `crc32_reverse` (src/crc32.rs lines 6-12).
Each Rust `<<` on `u32` is a shift modulo `2 ^ 32`. -/
def crc32_reverse (x0 : Nat) : Nat :=
  let x1 := (((x0 &&& 0x55555555) <<< 1) % 2 ^ 32) ||| ((x0 >>> 1) &&& 0x55555555)
  let x2 := (((x1 &&& 0x33333333) <<< 2) % 2 ^ 32) ||| ((x1 >>> 2) &&& 0x33333333)
  let x3 := (((x2 &&& 0x0F0F0F0F) <<< 4) % 2 ^ 32) ||| ((x2 >>> 4) &&& 0x0F0F0F0F)
  ((x3 <<< 24) % 2 ^ 32) ||| (((x3 &&& 0xFF00) <<< 8) % 2 ^ 32) |||
    ((x3 >>> 8) &&& 0xFF00) ||| (x3 >>> 24)

/-- Embedding of the body of the inner `for x in 0..8` loop of `crc32`
(src/crc32.rs lines 28-35); the state is the pair `(crc, sum)`. -/
def crc32_iter (sv : Nat) (st : Nat × Nat) (x : Nat) : Nat × Nat :=
  let sum := if x ≠ 0 then (st.2 * 2) % 2 ^ 32 else st.2
  let crc :=
    if ((st.1 ^^^ sum) &&& 0x80000000) ≠ 0 then ((st.1 * 2) % 2 ^ 32) ^^^ sv
    else (st.1 * 2) % 2 ^ 32
  (crc, sum)

/-- Embedding of `crc32` (src/crc32.rs lines 23-39): fold the per-byte
inner loop over the data buffer, starting from the initialization vector. -/
def crc32 (iv sv : Nat) (data : List Nat) : Nat :=
  data.foldl
    (fun crc byte => ((List.range 8).foldl (crc32_iter sv) (crc, crc32_reverse byte)).1)
    iv

/-- Embedding of `crc32_final` (src/crc32.rs lines 44-46); `!0u32 = 0xFFFFFFFF`. -/
def crc32_final (iv : Nat) : Nat :=
  crc32_reverse (iv ^^^ 0xFFFFFFFF)

/-! ## `src/error.rs` -/

/-- Embedding of `Error` (src/error.rs lines 8-14).  The
`core::array::TryFromSliceError` payload of `InvalidSlice` carries no
information and is dropped. -/
inductive Error
  | InvalidHeaderLen (actual expected : Nat)
  | InvalidSplLen (actual max : Nat)
  | InvalidSlice
  | InvalidHeaderFile
  | InvalidSplFile
  deriving DecidableEq, Repr

/-! ## `src/spl_header.rs`: constants and the header struct -/

/-- `DEF_SOFS` (src/spl_header.rs line 8). -/
def DEF_SOFS : Nat := 0x240
/-- `DEF_VERS` (src/spl_header.rs line 10). -/
def DEF_VERS : Nat := 0x01010101
/-- `DEF_BACKUP` (src/spl_header.rs line 12). -/
def DEF_BACKUP : Nat := 0x200000
/-- `DEF_RESL` (src/spl_header.rs line 14). -/
def DEF_RESL : Nat := 0x400
/-- `PATH_MAX` (src/spl_header.rs line 18). -/
def PATH_MAX : Nat := 4096
/-- `CRC_FAILED` (src/spl_header.rs line 20). -/
def CRC_FAILED : Nat := 0x5a5a5a5a
/-- `SPL_HEADER_LEN` (src/spl_header.rs line 24). -/
def SPL_HEADER_LEN : Nat := 1024
/-- `MAX_SPL_LEN` (src/spl_header.rs line 26). -/
def MAX_SPL_LEN : Nat := 180048
/-- `RES_PAD2_LEN` (src/spl_header.rs line 29). -/
def RES_PAD2_LEN : Nat := 636
/-- `RES_PAD3_LEN` (src/spl_header.rs line 30). -/
def RES_PAD3_LEN : Nat := 364

/-- Embedding of `UbootSplHeader` (src/spl_header.rs lines 37-48).
The `u32` fields are `Nat`s below `2 ^ 32`; the two reserved padding
buffers are byte lists of lengths 636 and 364. -/
structure UbootSplHeader where
  sofs : Nat
  bofs : Nat
  zro2 : List Nat
  vers : Nat
  fsiz : Nat
  resl : Nat
  crcs : Nat
  zro3 : List Nat
  deriving DecidableEq, Repr

/-- Well-formedness of a header value: exactly what the Rust types
`u32` and `[u8; N]` guarantee. -/
def UbootSplHeader.WF (h : UbootSplHeader) : Prop :=
  h.sofs < 2 ^ 32 ∧ h.bofs < 2 ^ 32 ∧ h.vers < 2 ^ 32 ∧ h.fsiz < 2 ^ 32 ∧
    h.resl < 2 ^ 32 ∧ h.crcs < 2 ^ 32 ∧
    h.zro2.length = RES_PAD2_LEN ∧ h.zro3.length = RES_PAD3_LEN ∧
    (∀ b ∈ h.zro2, b < 256) ∧ (∀ b ∈ h.zro3, b < 256)

instance (h : UbootSplHeader) : Decidable h.WF := by
  unfold UbootSplHeader.WF
  exact inferInstance

/-- Embedding of `UbootSplHeader::new` (src/spl_header.rs lines 52-63). -/
def UbootSplHeader.new : UbootSplHeader :=
  { sofs := DEF_SOFS
    bofs := DEF_BACKUP
    zro2 := List.replicate 636 0
    vers := DEF_VERS
    fsiz := 0
    resl := DEF_RESL
    crcs := 0
    zro3 := List.replicate 364 0 }

/-! ## Serialization: `From<&UbootSplHeader> for [u8; SPL_HEADER_LEN]`
(src/spl_header.rs lines 159-194) -/

/-- `u32::to_le_bytes`: the four little-endian bytes of a `u32`. -/
def u32le (x : Nat) : List Nat :=
  [x % 256, x / 256 % 256, x / 65536 % 256, x / 16777216 % 256]

/-- `u32::from_le_bytes` on a 4-byte list (0 on a wrong-sized list,
which never occurs after a successful `try_into`). -/
def fromLE4 : List Nat → Nat
  | [b0, b1, b2, b3] => b0 + 256 * b1 + 65536 * b2 + 16777216 * b3
  | _ => 0

/-- Embedding of `From<&UbootSplHeader> for [u8; SPL_HEADER_LEN]`
(src/spl_header.rs lines 159-194).  The output buffer starts as 1024
zero bytes; the six `u32` fields are written little-endian at offsets
0, 4, 644, 648, 652, 656.  The code *skips* the two reserved regions
(offsets 8..644 and 660..1024), leaving the zero initialization in
place: the struct fields `zro2`/`zro3` are not copied out. -/
def serializeHeader (h : UbootSplHeader) : List Nat :=
  u32le h.sofs ++ u32le h.bofs ++ List.replicate RES_PAD2_LEN 0 ++
    u32le h.vers ++ u32le h.fsiz ++ u32le h.resl ++ u32le h.crcs ++
    List.replicate RES_PAD3_LEN 0

/-! ## Deserialization: `TryFrom<&[u8]> for UbootSplHeader`
(src/spl_header.rs lines 202-262) -/

/-- Outcome of Rust code that may panic, fail with an `Error`, or
succeed. -/
inductive PanicOr (α : Type)
  | panicked
  | failed (e : Error)
  | ok (a : α)
  deriving DecidableEq, Repr

/-- Rust slice indexing `val[a..b]`: panics (`none`) unless
`a ≤ b ≤ val.len()`. -/
def sliceRange (val : List Nat) (a b : Nat) : Option (List Nat) :=
  if a ≤ b ∧ b ≤ val.length then some ((val.drop a).take (b - a)) else none

/-- Rust `<&[u8] as TryInto<[u8; n]>>::try_into`: succeeds exactly when
the slice length is `n` (else `TryFromSliceError`, i.e. `Error::InvalidSlice`). -/
def tryIntoArr (s : List Nat) (n : Nat) : Option (List Nat) :=
  if s.length = n then some s else none

/-- One `val[idx..idx+len].try_into()?` step of the deserializer:
out-of-range slicing panics, a length mismatch fails with
`InvalidSlice`, otherwise the sub-buffer is handed to `k`. -/
def readChunk (val : List Nat) (idx len n : Nat) (k : List Nat → PanicOr UbootSplHeader) :
    PanicOr UbootSplHeader :=
  match sliceRange val idx (idx + len) with
  | none => PanicOr.panicked
  | some s =>
    match tryIntoArr s n with
    | none => PanicOr.failed Error.InvalidSlice
    | some a => k a

/-- Embedding of `TryFrom<&[u8]> for UbootSplHeader`
(src/spl_header.rs lines 202-262).  Offsets follow the source's running
`idx` (`usize::saturating_add` never saturates here, so it is plain
addition): 0, 4, 8, 644, 648, 652, 656, 660.  Note that the `zro3` read
at offset 660 slices `RES_PAD2_LEN = 636` bytes (line 248) while
converting into a `RES_PAD3_LEN = 364` byte array. -/
def tryFromBytes (val : List Nat) : PanicOr UbootSplHeader :=
  if val.length < SPL_HEADER_LEN then
    PanicOr.failed (Error.InvalidHeaderLen val.length SPL_HEADER_LEN)
  else
    readChunk val 0 4 4 fun s0 =>
    readChunk val 4 4 4 fun s1 =>
    readChunk val 8 RES_PAD2_LEN RES_PAD2_LEN fun z2 =>
    readChunk val 644 4 4 fun s2 =>
    readChunk val 648 4 4 fun s3 =>
    readChunk val 652 4 4 fun s4 =>
    readChunk val 656 4 4 fun s5 =>
    readChunk val 660 RES_PAD2_LEN RES_PAD3_LEN fun z3 =>
    PanicOr.ok
      { sofs := fromLE4 s0
        bofs := fromLE4 s1
        zro2 := z2
        vers := fromLE4 s2
        fsiz := fromLE4 s3
        resl := fromLE4 s4
        crcs := fromLE4 s5
        zro3 := z3 }

/-! ## `src/main.rs`: the two operations (file I/O stripped away) -/

/-- Embedding of the core of `spl_create_header` (src/main.rs lines
84-152), with the file reading/writing collaborators stripped: the
payload bytes are passed in directly (`sz` is the payload length), and
the function returns the header bytes and the structured header instead
of writing them to disk.  `vers`/`bofs` are the `HeaderConf` override
values (the CLI default for both is 0). -/
def spl_create_header (vers bofs : Nat) (payload : List Nat) :
    Except Error (List Nat × UbootSplHeader) :=
  let header0 := UbootSplHeader.new
  let header1 := if bofs ≠ 0 then { header0 with bofs := bofs } else header0
  let header2 := if vers ≠ 0 then { header1 with vers := vers } else header1
  let sz := payload.length
  if sz ≥ MAX_SPL_LEN then Except.error (Error.InvalidSplLen sz MAX_SPL_LEN)
  else if sz = 0 then Except.error (Error.InvalidSplLen sz MAX_SPL_LEN)
  else
    let header3 := { header2 with fsiz := sz }
    let header4 := { header3 with crcs := crc32_final (crc32 0xFFFFFFFF 0x04c11db7 payload) }
    Except.ok (serializeHeader header4, header4)

/-- Embedding of the core of `spl_fix_image_header` (src/main.rs lines
157-207), with file I/O stripped: `img_bytes` is the 1024-byte header
buffer read from the image (`read_exact` into `[0u8; SPL_HEADER_LEN]`),
`bofs` the `HeaderConf` override value, and the result the re-serialized
header bytes that the code writes back at offset 0. -/
def spl_fix_image_header (bofs : Nat) (img_bytes : List Nat) : PanicOr (List Nat) :=
  match tryFromBytes img_bytes with
  | PanicOr.panicked => PanicOr.panicked
  | PanicOr.failed e => PanicOr.failed e
  | PanicOr.ok h =>
    let h1 := { h with bofs := if bofs ≠ 0 then bofs else DEF_BACKUP }
    let h2 := { h1 with crcs := CRC_FAILED }
    PanicOr.ok (serializeHeader h2)

/-! ## `HeaderConf` (src/spl_header.rs lines 289-404) -/

/-- Embedding of `HeaderConf` (src/spl_header.rs lines 289-295).  The
`name` buffer is a 4096-byte list; `set_name`'s argument is the UTF-8
byte sequence of the Rust `&str`. -/
structure HeaderConf where
  name : List Nat
  vers : Nat
  bofs : Nat
  create_header : Bool
  fix_image_header : Bool
  deriving DecidableEq, Repr

/-- Embedding of `HeaderConf::new` (src/spl_header.rs lines 299-307). -/
def HeaderConf.new : HeaderConf :=
  { name := List.replicate PATH_MAX 0
    vers := DEF_VERS
    bofs := DEF_BACKUP
    create_header := false
    fix_image_header := false }

/-- Embedding of `HeaderConf::name_len` (src/spl_header.rs lines
314-319): index of the first zero byte in the name buffer, or the buffer
length if there is none. -/
def HeaderConf.name_len (c : HeaderConf) : Nat :=
  (c.name.findIdx? (· = 0)).getD c.name.length

/-- Embedding of `HeaderConf::set_name` (src/spl_header.rs lines
322-327): copy at most `PATH_MAX - 1` bytes of the string, and zero the
rest of the buffer. -/
def HeaderConf.set_name (c : HeaderConf) (val : List Nat) : HeaderConf :=
  let len := min (PATH_MAX - 1) val.length
  { c with name := val.take len ++ List.replicate (PATH_MAX - len) 0 }

/-- One step of the standard UTF-8 acceptance automaton (used to model
`core::str::from_utf8`).  States: 0 = accept/start; 1, 2, 3 = that many
continuation bytes (`0x80..0xBF`) still expected; 4 = after `0xE0`
(first continuation restricted to `0xA0..0xBF`); 5 = after `0xED`
(`0x80..0x9F`, excluding surrogates); 6 = after `0xF0` (`0x90..0xBF`);
7 = after `0xF4` (`0x80..0x8F`, not above `U+10FFFF`); 8 = reject. -/
def utf8Step (st b : Nat) : Nat :=
  if st = 0 then
    if b < 0x80 then 0
    else if 0xC2 ≤ b ∧ b ≤ 0xDF then 1
    else if b = 0xE0 then 4
    else if b = 0xED then 5
    else if 0xE1 ≤ b ∧ b ≤ 0xEF then 2
    else if b = 0xF0 then 6
    else if 0xF1 ≤ b ∧ b ≤ 0xF3 then 3
    else if b = 0xF4 then 7
    else 8
  else if st = 1 then (if 0x80 ≤ b ∧ b ≤ 0xBF then 0 else 8)
  else if st = 2 then (if 0x80 ≤ b ∧ b ≤ 0xBF then 1 else 8)
  else if st = 3 then (if 0x80 ≤ b ∧ b ≤ 0xBF then 2 else 8)
  else if st = 4 then (if 0xA0 ≤ b ∧ b ≤ 0xBF then 1 else 8)
  else if st = 5 then (if 0x80 ≤ b ∧ b ≤ 0x9F then 1 else 8)
  else if st = 6 then (if 0x90 ≤ b ∧ b ≤ 0xBF then 2 else 8)
  else if st = 7 then (if 0x80 ≤ b ∧ b ≤ 0x8F then 2 else 8)
  else 8

/-- Model of `core::str::from_utf8(..).is_ok()`: the byte sequence is
accepted by the UTF-8 automaton (no truncated sequences, no stray
continuation bytes, no overlong encodings, no surrogates, nothing above
`U+10FFFF`). -/
def utf8Valid (l : List Nat) : Bool :=
  l.foldl utf8Step 0 == 0

/-- Embedding of `HeaderConf::name` (src/spl_header.rs lines 310-312),
returned as the byte sequence of the resulting `&str`:
`from_utf8(&name[..name_len])` yields those bytes when they are valid
UTF-8; `unwrap_or("")` yields the empty string otherwise. -/
def HeaderConf.nameStr (c : HeaderConf) : List Nat :=
  let s := c.name.take c.name_len
  if utf8Valid s then s else []

/-! ## Spec-side definitions (from `spec.md` sections 4.1/8), for the
refinement claim about the checksum engine -/

/-- The spec's `reverse32` (spec.md section 4.1): swap adjacent bits via
mask 0x55555555, then adjacent bit-pairs via 0x33333333, then nibbles
via 0x0F0F0F0F, then byte-swap the full word.  Written from the spec's
words, independently of `crc32_reverse`. -/
def reverse32Spec (x : Nat) : Nat :=
  let a := (((x &&& 0x55555555) <<< 1) % 2 ^ 32) ||| ((x >>> 1) &&& 0x55555555)
  let b := (((a &&& 0x33333333) <<< 2) % 2 ^ 32) ||| ((a >>> 2) &&& 0x33333333)
  let c := (((b &&& 0x0F0F0F0F) <<< 4) % 2 ^ 32) ||| ((b >>> 4) &&& 0x0F0F0F0F)
  ((c <<< 24) % 2 ^ 32) ||| (((c &&& 0xFF00) <<< 8) % 2 ^ 32) |||
    ((c >>> 8) &&& 0xFF00) ||| (c >>> 24)

/-- The spec's per-byte checksum step (spec.md section 4.1): for 8
iterations, the shifted value on iteration `i` is the bit-reversed byte
shifted left by `i` (left by 0 on the first iteration, by one more on
each subsequent one); if the top bit of `accumulator XOR shifted` is
set, the new accumulator is `(accumulator << 1) XOR polynomial`, else
`accumulator << 1`. -/
def checksumSpecByte (sv crc byte : Nat) : Nat :=
  (List.range 8).foldl
    (fun acc i =>
      let shifted := (reverse32Spec byte * 2 ^ i) % 2 ^ 32
      if ((acc ^^^ shifted) &&& 0x80000000) ≠ 0 then ((acc * 2) % 2 ^ 32) ^^^ sv
      else (acc * 2) % 2 ^ 32)
    crc

/-- The spec's `checksum(initial_value, polynomial, data)` (spec.md
section 4.1): process each byte with `checksumSpecByte`. -/
def checksumSpec (iv sv : Nat) (data : List Nat) : Nat :=
  data.foldl (checksumSpecByte sv) iv

/-- The spec's finalize step (spec.md section 4.1): bit-reverse
`accumulator XOR 0xFFFFFFFF`. -/
def finalizeSpec (acc : Nat) : Nat :=
  reverse32Spec (acc ^^^ 0xFFFFFFFF)

/-! ## Derived definitions used by the verification -/

/-- The common accumulator update of both checksum formulations. -/
def crcStep (sv acc shifted : Nat) : Nat :=
  if ((acc ^^^ shifted) &&& 0x80000000) ≠ 0 then ((acc * 2) % 2 ^ 32) ^^^ sv
  else (acc * 2) % 2 ^ 32

/-- The header assembled by a successful `spl_create_header` run. -/
def createdHeader (vers bofs : Nat) (payload : List Nat) : UbootSplHeader :=
  { sofs := DEF_SOFS
    bofs := if bofs ≠ 0 then bofs else DEF_BACKUP
    zro2 := List.replicate 636 0
    vers := if vers ≠ 0 then vers else DEF_VERS
    fsiz := payload.length
    resl := DEF_RESL
    crcs := crc32_final (crc32 0xFFFFFFFF 0x04c11db7 payload)
    zro3 := List.replicate 364 0 }

/-- A well-formed header value whose first reserved region is all-ones:
serialization does not copy it to the output. -/
def padHeader : UbootSplHeader :=
  { UbootSplHeader.new with zro2 := List.replicate 636 1 }

/-- A 4096-byte path whose 4095-byte truncation cuts a 2-byte UTF-8
character in half: 4094 ASCII bytes then an e-acute (`0xC3 0xA9`). -/
def valBad : List Nat := List.replicate 4094 97 ++ [0xC3, 0xA9]

/-! ## Helper lemmas: bit-level facts about `crc32_reverse` -/

theorem testBit_mask55 (j : Nat) :
    Nat.testBit 0x55555555 j = (decide (j < 32) && decide (j % 2 = 0)) := by
  rcases Nat.lt_or_ge j 32 with h | h
  · interval_cases j <;> decide
  · have hb : (0x55555555 : Nat) < 2 ^ j :=
      lt_of_lt_of_le (by norm_num) (Nat.pow_le_pow_right (by norm_num) h)
    simp [Nat.testBit_lt_two_pow hb, show ¬ (j < 32) by omega]

theorem testBit_mask33 (j : Nat) :
    Nat.testBit 0x33333333 j = (decide (j < 32) && decide (j % 4 < 2)) := by
  rcases Nat.lt_or_ge j 32 with h | h
  · interval_cases j <;> decide
  · have hb : (0x33333333 : Nat) < 2 ^ j :=
      lt_of_lt_of_le (by norm_num) (Nat.pow_le_pow_right (by norm_num) h)
    simp [Nat.testBit_lt_two_pow hb, show ¬ (j < 32) by omega]

theorem testBit_mask0F (j : Nat) :
    Nat.testBit 0x0F0F0F0F j = (decide (j < 32) && decide (j % 8 < 4)) := by
  rcases Nat.lt_or_ge j 32 with h | h
  · interval_cases j <;> decide
  · have hb : (0x0F0F0F0F : Nat) < 2 ^ j :=
      lt_of_lt_of_le (by norm_num) (Nat.pow_le_pow_right (by norm_num) h)
    simp [Nat.testBit_lt_two_pow hb, show ¬ (j < 32) by omega]

theorem testBit_maskFF00 (j : Nat) :
    Nat.testBit 0xFF00 j = (decide (8 ≤ j) && decide (j < 16)) := by
  rcases Nat.lt_or_ge j 16 with h | h
  · interval_cases j <;> decide
  · have hb : (0xFF00 : Nat) < 2 ^ j :=
      lt_of_lt_of_le (by norm_num) (Nat.pow_le_pow_right (by norm_num) h)
    simp [Nat.testBit_lt_two_pow hb, show ¬ (j < 16) by omega]

theorem testBit_mod_u32 (x i : Nat) :
    (x % 4294967296).testBit i = (decide (i < 32) && x.testBit i) := by
  have h : (4294967296 : Nat) = 2 ^ 32 := by norm_num
  rw [h, Nat.testBit_mod_two_pow]

theorem shl_mod_u32_even (a k : Nat) (hk : 0 < k) : (a <<< k) % 4294967296 % 2 = 0 := by
  rw [Nat.mod_mod_of_dvd _ (by norm_num)]
  rcases Nat.exists_eq_add_of_lt hk with ⟨m, rfl⟩
  rw [Nat.shiftLeft_eq, pow_succ, ← Nat.mul_assoc]
  exact Nat.mul_mod_left _ 2

set_option maxHeartbeats 2000000 in
/-- Bit `i` of the reversed word is bit `31 - i` of the input, for `i < 32`. -/
theorem crc32_reverse_testBit (x : Nat) (i : Nat) (hi : i < 32) :
    (crc32_reverse x).testBit i = x.testBit (31 - i) := by
  interval_cases i <;>
    simp [crc32_reverse, Nat.testBit_or, Nat.testBit_and, Nat.testBit_shiftLeft,
      Nat.testBit_shiftRight, Nat.testBit_mod_two_pow, testBit_mod_u32,
      testBit_mask55, testBit_mask33, testBit_mask0F, testBit_maskFF00,
      shl_mod_u32_even]

theorem crc32_reverse_lt (x : Nat) : crc32_reverse x < 2 ^ 32 := by
  have hmod : ∀ a : Nat, a % 2 ^ 32 < 2 ^ 32 := fun a => Nat.mod_lt _ (by norm_num)
  have hand : ∀ a m : Nat, m < 2 ^ 32 → a &&& m < 2 ^ 32 :=
    fun a m hm => lt_of_le_of_lt Nat.and_le_right hm
  have hshr : ∀ a k : Nat, a < 2 ^ 32 → a >>> k < 2 ^ 32 := fun a k h =>
    lt_of_le_of_lt (by rw [Nat.shiftRight_eq_div_pow]; exact Nat.div_le_self _ _) h
  simp only [crc32_reverse]
  refine Nat.or_lt_two_pow
    (Nat.or_lt_two_pow (Nat.or_lt_two_pow (hmod _) (hmod _)) (hand _ _ (by norm_num)))
    (hshr _ _ ?_)
  exact Nat.or_lt_two_pow (hmod _) (hand _ _ (by norm_num))

/-! ## Helper lemmas: the checksum engine refines the spec's algorithm -/

theorem reverse32Spec_eq_crc32_reverse : reverse32Spec = crc32_reverse := rfl

theorem crc32_iter_zero (sv c s : Nat) : crc32_iter sv (c, s) 0 = (crcStep sv c s, s) := rfl

theorem crc32_iter_succ (sv c s x : Nat) (hx : x ≠ 0) :
    crc32_iter sv (c, s) x = (crcStep sv c ((s * 2) % 2 ^ 32), (s * 2) % 2 ^ 32) := by
  simp [crc32_iter, crcStep, hx]

theorem checksumSpecByte_eq_foldl (sv crc byte : Nat) :
    checksumSpecByte sv crc byte
      = (List.range 8).foldl
          (fun acc i => crcStep sv acc ((reverse32Spec byte * 2 ^ i) % 2 ^ 32)) crc := rfl

/-- Invariant of the inner loop: after the initial iteration, the running
`sum` of the code is the pre-reversed byte shifted left by the iteration
index, so the remaining iterations agree with the spec's formulation. -/
theorem crc32_fold_inv (sv rev : Nat) :
    ∀ (n j c : Nat),
      ((List.range' (j + 1) n).foldl (crc32_iter sv) (c, (rev * 2 ^ j) % 2 ^ 32)).1
        = (List.range' (j + 1) n).foldl (fun acc i => crcStep sv acc ((rev * 2 ^ i) % 2 ^ 32)) c := by
  intro n
  induction n with
  | zero => intro j c; rfl
  | succ m ih =>
    intro j c
    have hr : List.range' (j + 1) (m + 1) = (j + 1) :: List.range' (j + 2) m := rfl
    rw [hr]
    simp only [List.foldl_cons]
    rw [crc32_iter_succ sv c _ (j + 1) (by omega)]
    have hs : (rev * 2 ^ j) % 2 ^ 32 * 2 % 2 ^ 32 = (rev * 2 ^ (j + 1)) % 2 ^ 32 := by
      rw [Nat.mod_mul_mod, Nat.mul_assoc, ← pow_succ]
    rw [hs]
    exact ih (j + 1) (crcStep sv c ((rev * 2 ^ (j + 1)) % 2 ^ 32))

/-- The code's per-byte inner loop computes the spec's per-byte step. -/
theorem crc32_byte_eq (sv crc byte : Nat) :
    ((List.range 8).foldl (crc32_iter sv) (crc, crc32_reverse byte)).1
      = checksumSpecByte sv crc byte := by
  have hrev := crc32_reverse_lt byte
  rw [checksumSpecByte_eq_foldl, reverse32Spec_eq_crc32_reverse]
  have h8 : List.range 8 = 0 :: List.range' 1 7 := rfl
  rw [h8]
  simp only [List.foldl_cons]
  rw [crc32_iter_zero]
  have h0 : crc32_reverse byte = (crc32_reverse byte * 2 ^ 0) % 2 ^ 32 := by
    rw [pow_zero, Nat.mul_one, Nat.mod_eq_of_lt hrev]
  conv_lhs => rw [h0]
  rw [show (1 : Nat) = 0 + 1 from rfl, crc32_fold_inv sv (crc32_reverse byte) 7 0]

theorem foldl_congr_fn {α β : Type} (f g : α → β → α) (h : ∀ a b, f a b = g a b) :
    ∀ (l : List β) (init : α), List.foldl f init l = List.foldl g init l := by
  intro l
  induction l with
  | nil => intro init; rfl
  | cons b t ih =>
    intro init
    rw [List.foldl_cons, List.foldl_cons, h init b]
    exact ih (g init b)

theorem crc32_eq_checksumSpec (iv sv : Nat) (data : List Nat) :
    crc32 iv sv data = checksumSpec iv sv data :=
  foldl_congr_fn _ _ (fun a b => crc32_byte_eq sv a b) data iv

theorem crc32_final_eq_finalizeSpec (acc : Nat) : crc32_final acc = finalizeSpec acc := rfl

/-! ## Helper lemmas: serialization layout, deserialization behavior,
the two operations, and the path buffer -/

theorem u32le_length (x : Nat) : (u32le x).length = 4 := rfl

theorem fromLE4_u32le (x : Nat) (hx : x < 2 ^ 32) : fromLE4 (u32le x) = x := by
  simp only [u32le, fromLE4]
  omega

theorem drop_chunk {α : Type} (l1 l2 : List α) (n k : Nat) (hl : l1.length = n) :
    (l1 ++ l2).drop (n + k) = l2.drop k := by
  subst hl
  exact List.drop_append k

set_option maxRecDepth 100000 in
theorem serializeHeader_assoc (h : UbootSplHeader) :
    serializeHeader h
      = u32le h.sofs ++ (u32le h.bofs ++ (List.replicate 636 0 ++ (u32le h.vers ++
          (u32le h.fsiz ++ (u32le h.resl ++ (u32le h.crcs ++ List.replicate 364 0)))))) := rfl

theorem serializeHeader_length (h : UbootSplHeader) : (serializeHeader h).length = 1024 := by
  rw [serializeHeader_assoc]
  simp only [List.length_append, u32le_length, List.length_replicate]

theorem serializeHeader_drop644 (h : UbootSplHeader) :
    (serializeHeader h).drop 644
      = u32le h.vers ++ (u32le h.fsiz ++ (u32le h.resl ++ (u32le h.crcs ++ List.replicate 364 0))) := by
  rw [serializeHeader_assoc,
    show (644 : Nat) = 4 + 640 from rfl, drop_chunk _ _ 4 640 (u32le_length _),
    show (640 : Nat) = 4 + 636 from rfl, drop_chunk _ _ 4 636 (u32le_length _),
    List.drop_left' (List.length_replicate _ _)]

theorem serializeHeader_take4 (h : UbootSplHeader) :
    (serializeHeader h).take 4 = u32le h.sofs := by
  rw [serializeHeader_assoc]
  exact List.take_left' (u32le_length _)

theorem serializeHeader_drop4 (h : UbootSplHeader) :
    ((serializeHeader h).drop 4).take 4 = u32le h.bofs := by
  rw [serializeHeader_assoc, List.drop_left' (u32le_length _)]
  exact List.take_left' (u32le_length _)

theorem serializeHeader_drop8 (h : UbootSplHeader) :
    ((serializeHeader h).drop 8).take 636 = List.replicate 636 0 := by
  rw [serializeHeader_assoc, show (8 : Nat) = 4 + 4 from rfl,
    drop_chunk _ _ 4 4 (u32le_length _), List.drop_left' (u32le_length _)]
  exact List.take_left' (List.length_replicate _ _)

theorem serializeHeader_vers (h : UbootSplHeader) :
    ((serializeHeader h).drop 644).take 4 = u32le h.vers := by
  rw [serializeHeader_drop644]
  exact List.take_left' (u32le_length _)

theorem serializeHeader_fsiz (h : UbootSplHeader) :
    ((serializeHeader h).drop 648).take 4 = u32le h.fsiz := by
  rw [show (648 : Nat) = 644 + 4 from rfl, ← List.drop_drop, serializeHeader_drop644,
    List.drop_left' (u32le_length _)]
  exact List.take_left' (u32le_length _)

theorem serializeHeader_resl (h : UbootSplHeader) :
    ((serializeHeader h).drop 652).take 4 = u32le h.resl := by
  rw [show (652 : Nat) = 644 + 8 from rfl, ← List.drop_drop, serializeHeader_drop644,
    show (8 : Nat) = 4 + 4 from rfl, drop_chunk _ _ 4 4 (u32le_length _),
    List.drop_left' (u32le_length _)]
  exact List.take_left' (u32le_length _)

theorem serializeHeader_crcs (h : UbootSplHeader) :
    ((serializeHeader h).drop 656).take 4 = u32le h.crcs := by
  rw [show (656 : Nat) = 644 + 12 from rfl, ← List.drop_drop, serializeHeader_drop644,
    show (12 : Nat) = 4 + 8 from rfl, drop_chunk _ _ 4 8 (u32le_length _),
    show (8 : Nat) = 4 + 4 from rfl, drop_chunk _ _ 4 4 (u32le_length _),
    List.drop_left' (u32le_length _)]
  exact List.take_left' (u32le_length _)

theorem serializeHeader_drop660 (h : UbootSplHeader) :
    (serializeHeader h).drop 660 = List.replicate 364 0 := by
  rw [show (660 : Nat) = 644 + 16 from rfl, ← List.drop_drop, serializeHeader_drop644,
    show (16 : Nat) = 4 + 12 from rfl, drop_chunk _ _ 4 12 (u32le_length _),
    show (12 : Nat) = 4 + 8 from rfl, drop_chunk _ _ 4 8 (u32le_length _),
    show (8 : Nat) = 4 + 4 from rfl, drop_chunk _ _ 4 4 (u32le_length _),
    List.drop_left' (u32le_length _)]

theorem readChunk_ok (val : List Nat) (idx len : Nat) (k : List Nat → PanicOr UbootSplHeader)
    (hle : idx + len ≤ val.length) :
    readChunk val idx len len k = k ((val.drop idx).take len) := by
  have hd : idx + len - idx = len := by omega
  have hcond : ((val.drop idx).take len).length = len := by
    simp only [List.length_take, List.length_drop]
    omega
  simp [readChunk, sliceRange, tryIntoArr, hd, hcond, hle, show idx ≤ idx + len from by omega]

theorem readChunk_oob (val : List Nat) (idx len n : Nat) (k : List Nat → PanicOr UbootSplHeader)
    (hgt : val.length < idx + len) :
    readChunk val idx len n k = PanicOr.panicked := by
  simp [readChunk, sliceRange, show ¬ (idx + len ≤ val.length) from by omega]

theorem readChunk_mismatch (val : List Nat) (idx len n : Nat) (k : List Nat → PanicOr UbootSplHeader)
    (hle : idx + len ≤ val.length) (hn : len ≠ n) :
    readChunk val idx len n k = PanicOr.failed Error.InvalidSlice := by
  have hd : idx + len - idx = len := by omega
  simp [readChunk, sliceRange, tryIntoArr, hd, hle, show idx ≤ idx + len from by omega,
    show len ⊓ (val.length - idx) = len from by omega, hn]

theorem tryFromBytes_short (val : List Nat) (h : val.length < SPL_HEADER_LEN) :
    tryFromBytes val = PanicOr.failed (Error.InvalidHeaderLen val.length SPL_HEADER_LEN) := by
  unfold tryFromBytes
  rw [if_pos h]

theorem tryFromBytes_panics (val : List Nat) (h1 : 1024 ≤ val.length) (h2 : val.length < 1296) :
    tryFromBytes val = PanicOr.panicked := by
  unfold tryFromBytes
  simp only [RES_PAD2_LEN, RES_PAD3_LEN, SPL_HEADER_LEN]
  rw [if_neg (by omega),
    readChunk_ok _ _ _ _ (by omega), readChunk_ok _ _ _ _ (by omega),
    readChunk_ok _ _ _ _ (by omega), readChunk_ok _ _ _ _ (by omega),
    readChunk_ok _ _ _ _ (by omega), readChunk_ok _ _ _ _ (by omega),
    readChunk_ok _ _ _ _ (by omega)]
  exact readChunk_oob _ _ _ _ _ (by omega)

theorem tryFromBytes_slice_fail (val : List Nat) (h : 1296 ≤ val.length) :
    tryFromBytes val = PanicOr.failed Error.InvalidSlice := by
  unfold tryFromBytes
  simp only [RES_PAD2_LEN, RES_PAD3_LEN, SPL_HEADER_LEN]
  rw [if_neg (by omega),
    readChunk_ok _ _ _ _ (by omega), readChunk_ok _ _ _ _ (by omega),
    readChunk_ok _ _ _ _ (by omega), readChunk_ok _ _ _ _ (by omega),
    readChunk_ok _ _ _ _ (by omega), readChunk_ok _ _ _ _ (by omega),
    readChunk_ok _ _ _ _ (by omega)]
  exact readChunk_mismatch _ _ _ _ _ (by omega) (by omega)

theorem tryFromBytes_never_ok (val : List Nat) (h : UbootSplHeader) :
    tryFromBytes val ≠ PanicOr.ok h := by
  rcases Nat.lt_or_ge val.length 1024 with hl | hl
  · rw [tryFromBytes_short val hl]
    simp
  · rcases Nat.lt_or_ge val.length 1296 with hm | hm
    · rw [tryFromBytes_panics val hl hm]
      simp
    · rw [tryFromBytes_slice_fail val hm]
      simp

theorem spl_fix_image_header_panics (bofs : Nat) (img : List Nat) (h : img.length = 1024) :
    spl_fix_image_header bofs img = PanicOr.panicked := by
  unfold spl_fix_image_header
  rw [tryFromBytes_panics img (by omega) (by omega)]

theorem spl_create_header_err (vers bofs : Nat) (payload : List Nat)
    (h : payload.length = 0 ∨ MAX_SPL_LEN ≤ payload.length) :
    spl_create_header vers bofs payload
      = Except.error (Error.InvalidSplLen payload.length MAX_SPL_LEN) := by
  unfold spl_create_header
  rcases h with h | h
  · rw [if_neg (by simp [MAX_SPL_LEN]; omega), if_pos h]
  · rw [if_pos h]

set_option maxRecDepth 100000 in
theorem spl_create_header_ok (vers bofs : Nat) (payload : List Nat)
    (h0 : payload.length ≠ 0) (h1 : payload.length < MAX_SPL_LEN) :
    spl_create_header vers bofs payload
      = Except.ok (serializeHeader (createdHeader vers bofs payload),
          createdHeader vers bofs payload) := by
  unfold spl_create_header
  rw [if_neg (by omega), if_neg h0]
  by_cases hb : bofs ≠ 0 <;> by_cases hv : vers ≠ 0 <;>
    simp [createdHeader, UbootSplHeader.new, hb, hv]

theorem getD_replicate_zero (n j : Nat) : (List.replicate n (0 : Nat)).getD j 0 = 0 := by
  rw [List.getD_eq_getElem?_getD, List.getElem?_replicate]
  split <;> rfl

theorem set_name_length (c : HeaderConf) (val : List Nat) :
    ((c.set_name val).name).length = PATH_MAX := by
  simp only [HeaderConf.set_name, PATH_MAX, List.length_append, List.length_take,
    List.length_replicate]
  omega

theorem set_name_prefix (c : HeaderConf) (val : List Nat) :
    (c.set_name val).name.take (min 4095 val.length) = val.take (min 4095 val.length) := by
  simp only [HeaderConf.set_name, PATH_MAX]
  norm_num

theorem set_name_zero (c : HeaderConf) (val : List Nat) (i : Nat)
    (hi : min 4095 val.length ≤ i) :
    (c.set_name val).name.getD i 0 = 0 := by
  simp only [HeaderConf.set_name, PATH_MAX]
  norm_num
  rw [List.getElem?_append_right (by simp [List.length_take]; omega), List.getElem?_replicate]
  split <;> rfl

theorem nameStr_valid (c : HeaderConf) (h : utf8Valid (c.name.take c.name_len) = true) :
    c.nameStr = c.name.take c.name_len := by
  simp [HeaderConf.nameStr, h]

theorem nameStr_invalid (c : HeaderConf) (h : utf8Valid (c.name.take c.name_len) = false) :
    c.nameStr = [] := by
  simp [HeaderConf.nameStr, h]

theorem valBad_length : valBad.length = 4096 := by
  rw [valBad]
  simp only [List.length_append, List.length_replicate, List.length_cons, List.length_nil]

theorem utf8fold_replicate97 (l : List Nat) :
    ∀ n, List.foldl utf8Step 0 (List.replicate n 97 ++ l) = List.foldl utf8Step 0 l
  | 0 => rfl
  | n + 1 => by
    rw [List.replicate_succ, List.cons_append, List.foldl_cons,
      show utf8Step 0 97 = 0 from rfl]
    exact utf8fold_replicate97 l n

theorem valBad_valid : utf8Valid valBad = true := by
  rw [valBad, utf8Valid, utf8fold_replicate97]
  rfl

theorem setName_valBad_name0 :
    (HeaderConf.new.set_name valBad).name
      = valBad.take (min 4095 valBad.length) ++ List.replicate (4096 - min 4095 valBad.length) 0 := by
  simp only [HeaderConf.set_name, PATH_MAX]

theorem setName_valBad_name :
    (HeaderConf.new.set_name valBad).name = (List.replicate 4094 97 ++ [0xC3]) ++ [0] := by
  rw [setName_valBad_name0, valBad_length, show min 4095 4096 = 4095 from rfl,
    show (4096 - 4095 : Nat) = 1 from rfl]
  rw [valBad, show (4095 : Nat) = (List.replicate 4094 (97 : Nat)).length + 1 from
      by rw [List.length_replicate], List.take_append]
  rw [show List.take 1 [(0xC3 : Nat), 0xA9] = [0xC3] from rfl,
    show List.replicate 1 (0 : Nat) = [0] from rfl]

theorem setName_valBad_name_len :
    (HeaderConf.new.set_name valBad).name_len = 4095 := by
  rw [HeaderConf.name_len, setName_valBad_name]
  rw [List.findIdx?_append, List.findIdx?_append, List.findIdx?_replicate]
  simp only [show (decide ((97 : Nat) = 0)) = false from rfl, Bool.false_eq_true, and_false,
    if_false,
    show (List.findIdx? (fun x => decide (x = 0)) [(0xC3 : Nat)]) = none from rfl,
    show (List.findIdx? (fun x => decide (x = 0)) [(0 : Nat)]) = some 0 from rfl,
    Option.map_none, Option.map_some, Option.or_none, Option.none_or,
    List.length_append, List.length_replicate, List.length_cons, List.length_nil,
    Option.getD_some]
  rfl

theorem setName_valBad_nameStr :
    (HeaderConf.new.set_name valBad).nameStr = [] := by
  have htake : List.take 4095 ((List.replicate 4094 (97 : Nat) ++ [0xC3]) ++ [0])
      = List.replicate 4094 97 ++ [0xC3] :=
    List.take_left' (by
      simp only [List.length_append, List.length_replicate, List.length_cons, List.length_nil])
  have hcond : utf8Valid (List.replicate 4094 (97 : Nat) ++ [0xC3]) = false := by
    simp only [utf8Valid]
    rw [utf8fold_replicate97]
    rfl
  simp only [HeaderConf.nameStr, setName_valBad_name_len, setName_valBad_name, htake, hcond,
    Bool.false_eq_true, if_false]

/-! ## The claims -/

/-- Claim C1: the spec says deserialization fails with `InvalidHeaderLen`
iff the buffer is shorter than 1024 bytes and succeeds on every buffer of
at least 1024 bytes.  The short-buffer half holds, but the success half is
a code bug: the `zro3` read slices 636 bytes starting at offset 660, so a
1024-byte buffer makes the code panic (out-of-bounds slice `660..1296`). -/
theorem claim_C1 :
    tryFromBytes (List.replicate 1023 0)
        = PanicOr.failed (Error.InvalidHeaderLen 1023 1024)
    ∧ (List.replicate 1024 (0 : Nat)).length = 1024
    ∧ tryFromBytes (List.replicate 1024 0) = PanicOr.panicked := by
  refine ⟨?_, by simp only [List.length_replicate],
    tryFromBytes_panics _ (by simp only [List.length_replicate]; decide)
      (by simp only [List.length_replicate]; decide)⟩
  rw [tryFromBytes_short _ (by simp only [List.length_replicate]; decide)]
  simp only [List.length_replicate]
  rfl

/-- Claim C2: the spec's round-trip property `deserialize (serialize h) = h`.
Code bug: `serialize` always yields 1024 bytes, and deserializing any
1024-byte buffer panics in the `zro3` read (slice `660..1296`), so the
round trip fails for every header, already at the default header. -/
theorem claim_C2 :
    (serializeHeader UbootSplHeader.new).length = 1024
    ∧ tryFromBytes (serializeHeader UbootSplHeader.new) = PanicOr.panicked :=
  ⟨serializeHeader_length _,
    tryFromBytes_panics _ (by rw [serializeHeader_length]) (by rw [serializeHeader_length]; decide)⟩

set_option maxRecDepth 100000 in
/-- Counterexample to claim C3 as stated: `padHeader` is a well-formed
header whose in-memory first reserved region is all-ones, yet the
serialized bytes at offsets 8..644 are not that region (they are zeros):
serialization does not copy the reserved regions from the struct. -/
theorem claim_C3_counterexample :
    padHeader.WF ∧ ((serializeHeader padHeader).drop 8).take 636 ≠ padHeader.zro2 := by
  constructor
  · decide
  · rw [serializeHeader_drop8]
    decide

/-- Claim C3 (amended): serialization writes every named field at its
fixed offset in little-endian order, and writes the two reserved regions
of the output as zero bytes (offsets 8..644 and 660..1024), regardless of
the header's in-memory reserved regions. -/
theorem claim_C3 (h : UbootSplHeader) (hw : h.WF) :
    fromLE4 ((serializeHeader h).take 4) = h.sofs
    ∧ fromLE4 (((serializeHeader h).drop 4).take 4) = h.bofs
    ∧ fromLE4 (((serializeHeader h).drop 644).take 4) = h.vers
    ∧ fromLE4 (((serializeHeader h).drop 648).take 4) = h.fsiz
    ∧ fromLE4 (((serializeHeader h).drop 652).take 4) = h.resl
    ∧ fromLE4 (((serializeHeader h).drop 656).take 4) = h.crcs
    ∧ ((serializeHeader h).drop 8).take 636 = List.replicate 636 0
    ∧ (serializeHeader h).drop 660 = List.replicate 364 0 := by
  obtain ⟨h1, h2, h3, h4, h5, h6, -, -, -, -⟩ := hw
  exact ⟨by rw [serializeHeader_take4]; exact fromLE4_u32le _ h1,
    by rw [serializeHeader_drop4]; exact fromLE4_u32le _ h2,
    by rw [serializeHeader_vers]; exact fromLE4_u32le _ h3,
    by rw [serializeHeader_fsiz]; exact fromLE4_u32le _ h4,
    by rw [serializeHeader_resl]; exact fromLE4_u32le _ h5,
    by rw [serializeHeader_crcs]; exact fromLE4_u32le _ h6,
    serializeHeader_drop8 h, serializeHeader_drop660 h⟩

set_option maxRecDepth 100000 in
/-- Witness for claim C3 at the default header. -/
theorem claim_C3_witness :
    fromLE4 ((serializeHeader UbootSplHeader.new).take 4) = UbootSplHeader.new.sofs :=
  (claim_C3 UbootSplHeader.new (by decide)).1

/-- Claim C4: the checksum engine matches the spec's bit-level algorithm:
the bit-reversal is the masked swap sequence the spec describes, the
per-byte loop shifts the reversed byte left by the iteration index and
updates the accumulator by `(acc << 1) XOR poly` exactly when the top bit
of `acc XOR shifted` is set, and finalization reverses `acc XOR 0xFFFFFFFF`. -/
theorem claim_C4 :
    crc32_reverse = reverse32Spec
    ∧ (∀ (iv sv : Nat) (data : List Nat), crc32 iv sv data = checksumSpec iv sv data)
    ∧ (∀ acc : Nat, crc32_final acc = finalizeSpec acc) :=
  ⟨reverse32Spec_eq_crc32_reverse.symm, crc32_eq_checksumSpec, crc32_final_eq_finalizeSpec⟩

/-- Claim C5: serialization yields exactly 1024 bytes, with the six
fields encoded little-endian at offsets 0, 4, 644, 648, 652, 656. -/
theorem claim_C5 (h : UbootSplHeader) (hw : h.WF) :
    (serializeHeader h).length = 1024
    ∧ fromLE4 ((serializeHeader h).take 4) = h.sofs
    ∧ fromLE4 (((serializeHeader h).drop 4).take 4) = h.bofs
    ∧ fromLE4 (((serializeHeader h).drop 644).take 4) = h.vers
    ∧ fromLE4 (((serializeHeader h).drop 648).take 4) = h.fsiz
    ∧ fromLE4 (((serializeHeader h).drop 652).take 4) = h.resl
    ∧ fromLE4 (((serializeHeader h).drop 656).take 4) = h.crcs := by
  obtain ⟨h1, h2, h3, h4, h5, h6, -, -, -, -⟩ := hw
  exact ⟨serializeHeader_length h,
    by rw [serializeHeader_take4]; exact fromLE4_u32le _ h1,
    by rw [serializeHeader_drop4]; exact fromLE4_u32le _ h2,
    by rw [serializeHeader_vers]; exact fromLE4_u32le _ h3,
    by rw [serializeHeader_fsiz]; exact fromLE4_u32le _ h4,
    by rw [serializeHeader_resl]; exact fromLE4_u32le _ h5,
    by rw [serializeHeader_crcs]; exact fromLE4_u32le _ h6⟩

set_option maxRecDepth 100000 in
/-- Witness for claim C5 at the default header. -/
theorem claim_C5_witness : (serializeHeader UbootSplHeader.new).length = 1024 :=
  (claim_C5 UbootSplHeader.new (by decide)).1

/-- Claim C6: the spec says fix-existing-header decodes the 1024-byte
buffer, overrides the backup offset, sets the checksum field to
0x5A5A5A5A and re-serializes.  Code bug: decoding any 1024-byte buffer
panics (the `zro3` read slices `660..1296`), so the operation never
reaches the field updates, for any override and any buffer contents. -/
theorem claim_C6 :
    spl_fix_image_header 0 (List.replicate 1024 0) = PanicOr.panicked
    ∧ spl_fix_image_header 0x300000 (List.replicate 1024 0x5A) = PanicOr.panicked :=
  ⟨spl_fix_image_header_panics _ _ (by simp only [List.length_replicate]),
    spl_fix_image_header_panics _ _ (by simp only [List.length_replicate])⟩

/-- Claim C7: `spl_create_header` errors with `InvalidSplLen` exactly when
the payload length is 0 or at least `MAX_SPL_LEN = 180048`, and succeeds
otherwise. -/
theorem claim_C7 (vers bofs : Nat) (payload : List Nat) :
    ((payload.length = 0 ∨ 180048 ≤ payload.length) →
        spl_create_header vers bofs payload
          = Except.error (Error.InvalidSplLen payload.length 180048))
    ∧ (payload.length ≠ 0 → payload.length < 180048 →
        ∃ out, spl_create_header vers bofs payload = Except.ok out) := by
  constructor
  · intro h
    exact spl_create_header_err vers bofs payload h
  · intro h0 h1
    exact ⟨_, spl_create_header_ok vers bofs payload h0 h1⟩

/-- Witness for claim C7: an empty payload is rejected, a maximal payload
of 180048 bytes is rejected, and a payload of 180047 bytes is accepted. -/
theorem claim_C7_witness :
    spl_create_header 0 0 [] = Except.error (Error.InvalidSplLen 0 180048)
    ∧ spl_create_header 0 0 (List.replicate 180048 0)
        = Except.error (Error.InvalidSplLen (List.replicate 180048 (0 : Nat)).length 180048)
    ∧ (∃ out, spl_create_header 0 0 (List.replicate 180047 0) = Except.ok out) := by
  refine ⟨(claim_C7 0 0 []).1 (Or.inl rfl),
    (claim_C7 0 0 _).1 (Or.inr (by simp only [List.length_replicate]; decide)),
    (claim_C7 0 0 _).2 (by simp only [List.length_replicate]; decide)
      (by simp only [List.length_replicate]; decide)⟩

/-- Claim C8: in `spl_create_header` the version and backup-offset
overrides apply only when non-zero; an override of 0 leaves the defaults
(version 0x01010101, backup offset 0x200000) in place. -/
theorem claim_C8 (vers bofs : Nat) (payload : List Nat) (out : List Nat)
    (hh : UbootSplHeader)
    (hok : spl_create_header vers bofs payload = Except.ok (out, hh)) :
    (hh.vers = if vers ≠ 0 then vers else DEF_VERS)
    ∧ (hh.bofs = if bofs ≠ 0 then bofs else DEF_BACKUP)
    ∧ (vers = 0 → hh.vers = 0x01010101)
    ∧ (bofs = 0 → hh.bofs = 0x200000) := by
  by_cases h0 : payload.length = 0
  · rw [spl_create_header_err vers bofs payload (Or.inl h0)] at hok
    exact absurd hok (by simp)
  · by_cases h1 : MAX_SPL_LEN ≤ payload.length
    · rw [spl_create_header_err vers bofs payload (Or.inr h1)] at hok
      exact absurd hok (by simp)
    · rw [spl_create_header_ok vers bofs payload h0 (by omega)] at hok
      injection hok with h2
      have hhh : createdHeader vers bofs payload = hh := congrArg Prod.snd h2
      subst hhh
      refine ⟨rfl, rfl, ?_, ?_⟩
      · intro hv
        subst hv
        rfl
      · intro hb
        subst hb
        rfl

/-- Witness for claim C8: with both overrides 0 and payload `[37]`, the
created header keeps the default version and backup offset. -/
theorem claim_C8_witness :
    (createdHeader 0 0 [37]).vers = 0x01010101
    ∧ (createdHeader 0 0 [37]).bofs = 0x200000 := by
  have h := claim_C8 0 0 [37] (serializeHeader (createdHeader 0 0 [37]))
    (createdHeader 0 0 [37]) (spl_create_header_ok 0 0 [37] (by decide) (by decide))
  exact ⟨h.2.2.1 rfl, h.2.2.2 rfl⟩

/-- Claim C9: the bit-reversal is an involution on 32-bit values. -/
theorem claim_C9 (x : Nat) (hx : x < 2 ^ 32) :
    crc32_reverse (crc32_reverse x) = x := by
  apply Nat.eq_of_testBit_eq
  intro i
  rcases Nat.lt_or_ge i 32 with hi | hi
  · rw [crc32_reverse_testBit _ i hi, crc32_reverse_testBit _ (31 - i) (by omega)]
    congr 1
    omega
  · have h1 : crc32_reverse (crc32_reverse x) < 2 ^ i :=
      lt_of_lt_of_le (crc32_reverse_lt _) (Nat.pow_le_pow_right (by norm_num) hi)
    have h2 : x < 2 ^ i := lt_of_lt_of_le hx (Nat.pow_le_pow_right (by norm_num) hi)
    rw [Nat.testBit_lt_two_pow h1, Nat.testBit_lt_two_pow h2]

/-- Witness for claim C9 at a concrete 32-bit value. -/
theorem claim_C9_witness : crc32_reverse (crc32_reverse 0x12345678) = 0x12345678 :=
  claim_C9 0x12345678 (by decide)

/-- Claim C10: `set_name` stores at most the first 4095 bytes and zeroes
the rest of the 4096-byte buffer (so byte 4095 is always 0 and the path
is NUL-terminated); `name` returns the stored bytes up to the first zero
when they are valid UTF-8 and the empty string otherwise; in particular
the 4096-byte input `valBad`, whose 4095-byte cut splits a 2-byte UTF-8
character, yields the empty string. -/
theorem claim_C10 :
    (∀ (c : HeaderConf) (val : List Nat),
        ((c.set_name val).name.length = 4096)
        ∧ ((c.set_name val).name.take (min 4095 val.length) = val.take (min 4095 val.length))
        ∧ (∀ i, min 4095 val.length ≤ i → (c.set_name val).name.getD i 0 = 0)
        ∧ ((c.set_name val).name.getD 4095 0 = 0))
    ∧ (∀ c : HeaderConf,
        (utf8Valid (c.name.take c.name_len) = true → c.nameStr = c.name.take c.name_len)
        ∧ (utf8Valid (c.name.take c.name_len) = false → c.nameStr = []))
    ∧ (valBad.length > 4095 ∧ utf8Valid valBad = true
        ∧ (HeaderConf.new.set_name valBad).nameStr = []) := by
  refine ⟨fun c val => ⟨(set_name_length c val).trans rfl, set_name_prefix c val,
      set_name_zero c val, set_name_zero c val 4095 (by omega)⟩,
    fun c => ⟨nameStr_valid c, nameStr_invalid c⟩,
    by rw [valBad_length]; omega, valBad_valid, setName_valBad_nameStr⟩

/-- Witness for claim C10: a short name is stored NUL-terminated, with
byte 100 of the buffer zero. -/
theorem claim_C10_witness :
    (HeaderConf.new.set_name [104, 105]).name.getD 100 0 = 0 :=
  (claim_C10.1 HeaderConf.new [104, 105]).2.2.1 100 (by decide)

end SplTool
